import Mathlib

/-
Verification of the ml-model-decorators repository: a shallow embedding of the
`MLModelDecorator` base class and the `PredictionIDDecorator` concrete decorator,
together with proofs of the behavioural properties stated in the specification.

The Python code being embedded (from the repository's notebook):

  class MLModelDecorator(MLModel):
      def __init__(self, model=None, **kwargs):
          if model is not None and not isinstance(model, MLModel):
              raise ValueError(...)
          self.__dict__["_model"] = model
          self.__dict__["_configuration"] = kwargs
      -- six read-only properties and predict, all forwarding to self._model

  class PredictionIDDecorator(MLModelDecorator):
      -- description appends a fixed clause
      -- input_schema / output_schema derive new pydantic models with create_model
      -- predict reuses a supplied prediction_id or generates str(uuid4())
-/

namespace MLDec

/-- Values carried in the attribute slots of the Python objects that the
decorators handle: the singleton None, strings and integers. -/
inductive PyValue where
  | none
  | str (s : String)
  | int (n : Int)
  deriving DecidableEq

/-- A Python data object as the decorators see it: a finite association of
attribute names to values.  Attribute names are unique in real objects, and
lookup takes the first binding. -/
structure PyObject where
  fields : List (String × PyValue)
  deriving DecidableEq

/-- Errors that the embedded code can raise.
`valueErrorNotMLModel` is the ValueError raised by `MLModelDecorator.__init__`
when the wrapped object is not an MLModel (the spec calls this failure
InvalidWrappedComponent).
`attributeErrorNoneModel` is the AttributeError raised when a surface member is
invoked while `_model` is still None (the spec calls this UnboundDecorator).
`typeErrorDuplicateKeyword` is the TypeError Python raises when
`output_schema(prediction_id=..., **prediction.dict())` receives the keyword
`prediction_id` twice.  `other` covers arbitrary errors raised by a wrapped
model's own predict. -/
inductive PyError where
  | valueErrorNotMLModel
  | attributeErrorNoneModel
  | typeErrorDuplicateKeyword
  | other (msg : String)
  deriving DecidableEq

/-- Descriptor of one pydantic schema field: its type annotation, whether it is
required, and its default value. A field declared as `(Optional[str], None)` is
optional with default None; one declared as `(str, ...)` is required. -/
structure FieldDescriptor where
  ty : String
  required : Bool
  defaultValue : Option PyValue
  deriving DecidableEq

/-- A pydantic model class as the decorators treat it: a class name plus an
ordered mapping from field names to descriptors. -/
structure Schema where
  name : String
  fields : List (String × FieldDescriptor)
  deriving DecidableEq

/-- Inheritance part of pydantic `create_model(..., __base__=base)`: every base
field is kept in place, except that a field redeclared in `additions` takes the
new descriptor (child declarations override inherited ones). -/
def applyOverrides (additions : List (String × FieldDescriptor)) :
    List (String × FieldDescriptor) → List (String × FieldDescriptor)
  | [] => []
  | (n, d) :: rest =>
    (match additions.lookup n with
     | some d' => (n, d')
     | Option.none => (n, d)) :: applyOverrides additions rest

/-- Embedding of pydantic `create_model(name, **additions, __base__=base)`:
the derived class carries the given name, the base fields (with redeclared
fields overridden in place) followed by the genuinely new fields. -/
def create_model (name : String) (additions : List (String × FieldDescriptor))
    (base : Schema) : Schema :=
  { name := name
    fields := applyOverrides additions base.fields ++
      additions.filter (fun a => (base.fields.lookup a.1).isNone) }

/-- The Capability Surface of `ml_base`: an MLModel instance exposes four
identity strings, the two schema classes, and a predict operation that can
fail.  A decorator presents this same surface, so wrapped components in the
theorems below range over arbitrary values of this type. -/
structure MLModel where
  display_name : String
  qualified_name : String
  description : String
  version : String
  input_schema : Schema
  output_schema : Schema
  predict : PyObject → Except PyError PyObject

/-- A candidate object passed as the `model` argument of
`MLModelDecorator.__init__`: either an actual MLModel instance, or some object
of another type (which `isinstance(model, MLModel)` rejects). -/
inductive WrappedCandidate where
  | mlmodel (m : MLModel)
  | otherObject (typeName : String)

/-- State of an `MLModelDecorator` instance: the `_model` slot (None until a
component is attached) and the `_configuration` mapping captured from kwargs. -/
structure MLModelDecorator where
  _model : Option MLModel
  _configuration : List (String × PyValue)

/-- Embedding of `MLModelDecorator.__init__`: a supplied non-MLModel object is
rejected with ValueError before any state is set; otherwise the instance is
created with `_model` and `_configuration` assigned. -/
def MLModelDecorator.init (model : Option WrappedCandidate)
    (kwargs : List (String × PyValue)) : Except PyError MLModelDecorator :=
  match model with
  | some (.otherObject _) => .error .valueErrorNotMLModel
  | some (.mlmodel m) => .ok ⟨some m, kwargs⟩
  | Option.none => .ok ⟨Option.none, kwargs⟩

/-- Base decorator property `display_name`: reads the wrapped component's value
at access time; on an unbound decorator the attribute access on None fails. -/
def MLModelDecorator.display_name (d : MLModelDecorator) : Except PyError String :=
  match d._model with
  | some m => .ok m.display_name
  | Option.none => .error .attributeErrorNoneModel

/-- Base decorator property `qualified_name`. -/
def MLModelDecorator.qualified_name (d : MLModelDecorator) : Except PyError String :=
  match d._model with
  | some m => .ok m.qualified_name
  | Option.none => .error .attributeErrorNoneModel

/-- Base decorator property `description`. -/
def MLModelDecorator.description (d : MLModelDecorator) : Except PyError String :=
  match d._model with
  | some m => .ok m.description
  | Option.none => .error .attributeErrorNoneModel

/-- Base decorator property `version`. -/
def MLModelDecorator.version (d : MLModelDecorator) : Except PyError String :=
  match d._model with
  | some m => .ok m.version
  | Option.none => .error .attributeErrorNoneModel

/-- Base decorator property `input_schema`. -/
def MLModelDecorator.input_schema (d : MLModelDecorator) : Except PyError Schema :=
  match d._model with
  | some m => .ok m.input_schema
  | Option.none => .error .attributeErrorNoneModel

/-- Base decorator property `output_schema`. -/
def MLModelDecorator.output_schema (d : MLModelDecorator) : Except PyError Schema :=
  match d._model with
  | some m => .ok m.output_schema
  | Option.none => .error .attributeErrorNoneModel

/-- Base decorator `predict`: forwards to `self._model.predict(data=data)`,
returning its result (or error) unchanged. -/
def MLModelDecorator.predict (d : MLModelDecorator) (data : PyObject) :
    Except PyError PyObject :=
  match d._model with
  | some m => m.predict data
  | Option.none => .error .attributeErrorNoneModel

/-- Claim C1: a decorator built from the base `MLModelDecorator` class alone
around a wrapped component `m` is transparent: construction succeeds and yields
exactly the state holding `m`, `predict` returns precisely `m.predict` on every
input, and each of the six surface properties read on the decorator equals the
corresponding property of `m` at access time. -/
theorem base_decorator_transparency (m : MLModel)
    (kwargs : List (String × PyValue)) (x : PyObject) :
    MLModelDecorator.init (some (.mlmodel m)) kwargs = .ok ⟨some m, kwargs⟩ ∧
    MLModelDecorator.predict ⟨some m, kwargs⟩ x = m.predict x ∧
    MLModelDecorator.display_name ⟨some m, kwargs⟩ = .ok m.display_name ∧
    MLModelDecorator.qualified_name ⟨some m, kwargs⟩ = .ok m.qualified_name ∧
    MLModelDecorator.description ⟨some m, kwargs⟩ = .ok m.description ∧
    MLModelDecorator.version ⟨some m, kwargs⟩ = .ok m.version ∧
    MLModelDecorator.input_schema ⟨some m, kwargs⟩ = .ok m.input_schema ∧
    MLModelDecorator.output_schema ⟨some m, kwargs⟩ = .ok m.output_schema :=
  ⟨rfl, rfl, rfl, rfl, rfl, rfl, rfl, rfl⟩

/-- Claim C5: constructing a decorator around an object that is not an MLModel
(fails `isinstance(model, MLModel)`, i.e. does not carry the Capability
Surface) fails with the ValueError the spec calls InvalidWrappedComponent, and
no decorator instance is produced (the result is an error, not a state);
conversely, construction around any MLModel succeeds. -/
theorem init_rejects_non_mlmodel (m : MLModel) (typeName : String)
    (kwargs : List (String × PyValue)) :
    MLModelDecorator.init (some (.otherObject typeName)) kwargs =
      .error .valueErrorNotMLModel ∧
    MLModelDecorator.init (some (.mlmodel m)) kwargs = .ok ⟨some m, kwargs⟩ :=
  ⟨rfl, rfl⟩

/-- Claim C6: constructing a decorator without a wrapped component succeeds
(two-phase construction), and invoking any of the seven surface members on the
unbound decorator fails with the AttributeError on the None model slot, which
the spec names UnboundDecorator. -/
theorem unbound_decorator_operations_fail
    (kwargs : List (String × PyValue)) (x : PyObject) :
    MLModelDecorator.init Option.none kwargs = .ok ⟨Option.none, kwargs⟩ ∧
    MLModelDecorator.display_name ⟨Option.none, kwargs⟩ =
      .error .attributeErrorNoneModel ∧
    MLModelDecorator.qualified_name ⟨Option.none, kwargs⟩ =
      .error .attributeErrorNoneModel ∧
    MLModelDecorator.description ⟨Option.none, kwargs⟩ =
      .error .attributeErrorNoneModel ∧
    MLModelDecorator.version ⟨Option.none, kwargs⟩ =
      .error .attributeErrorNoneModel ∧
    MLModelDecorator.input_schema ⟨Option.none, kwargs⟩ =
      .error .attributeErrorNoneModel ∧
    MLModelDecorator.output_schema ⟨Option.none, kwargs⟩ =
      .error .attributeErrorNoneModel ∧
    MLModelDecorator.predict ⟨Option.none, kwargs⟩ x =
      .error .attributeErrorNoneModel :=
  ⟨rfl, rfl, rfl, rfl, rfl, rfl, rfl, rfl⟩

/-- The sixteen lowercase hexadecimal digit characters. -/
def hexDigits : List Char := "0123456789abcdef".toList

/-- Character for one hexadecimal digit (the value is taken modulo 16). -/
def hexDigitChar (n : Nat) : Char := hexDigits.getD (n % 16) '0'

/-- Tests whether a character is a lowercase hexadecimal digit. -/
def isHexChar (c : Char) : Bool := hexDigits.contains c

/-- Fixed-width lowercase hexadecimal rendering of a natural number, most
significant digit first, zero-padded to `w` digits. -/
def natToHex : Nat → Nat → List Char
  | _, 0 => []
  | n, w + 1 => natToHex (n / 16) w ++ [hexDigitChar n]

/-- The 128-bit integer underlying `uuid.uuid4()`: 128 random bits with the
variant bits (bits 62 and 63) forced to binary 10 and the version bits (bits 76
to 79) forced to 4, exactly as CPython's `UUID(bytes=..., version=4)` does. -/
def uuid4int (r : Nat) : Nat :=
  let x0 := r % 2 ^ 128
  let x1 := x0 - (x0 / 2 ^ 62 % 4) * 2 ^ 62 + 2 * 2 ^ 62
  x1 - (x1 / 2 ^ 76 % 16) * 2 ^ 76 + 4 * 2 ^ 76

/-- Embedding of `str(uuid4())` applied to a random 128-bit draw `r`: the
canonical dashed hexadecimal form, five groups of 8-4-4-4-12 hex digits. -/
def uuid4str (r : Nat) : String :=
  let h := natToHex (uuid4int r) 32
  String.mk (h.take 8) ++ "-" ++ String.mk ((h.drop 8).take 4) ++ "-" ++
    String.mk ((h.drop 12).take 4) ++ "-" ++ String.mk ((h.drop 16).take 4) ++
    "-" ++ String.mk (h.drop 20)

/-- A string is a canonical dashed hexadecimal UUID rendering when it consists
of five groups of lowercase hex digits of lengths 8, 4, 4, 4 and 12 separated
by single dashes. -/
def IsCanonicalUuid (s : String) : Prop :=
  ∃ g1 g2 g3 g4 g5 : List Char,
    s = String.mk g1 ++ "-" ++ String.mk g2 ++ "-" ++ String.mk g3 ++ "-" ++
      String.mk g4 ++ "-" ++ String.mk g5 ∧
    g1.length = 8 ∧ g2.length = 4 ∧ g3.length = 4 ∧ g4.length = 4 ∧
    g5.length = 12 ∧
    (∀ c ∈ g1, isHexChar c = true) ∧ (∀ c ∈ g2, isHexChar c = true) ∧
    (∀ c ∈ g3, isHexChar c = true) ∧ (∀ c ∈ g4, isHexChar c = true) ∧
    (∀ c ∈ g5, isHexChar c = true)

theorem isHexChar_hexDigitChar (n : Nat) : isHexChar (hexDigitChar n) = true := by
  unfold hexDigitChar List.getD
  cases h : hexDigits.get? (n % 16) with
  | none => simp [isHexChar]; decide
  | some c =>
    have hc : c ∈ hexDigits := List.get?_mem h
    simp only [Option.getD_some]
    simpa [isHexChar] using List.elem_eq_true_of_mem hc

theorem natToHex_length (n w : Nat) : (natToHex n w).length = w := by
  induction w generalizing n with
  | zero => rfl
  | succ p ih =>
    show (natToHex (n / 16) p ++ [hexDigitChar n]).length = p + 1
    rw [List.length_append, ih, List.length_singleton]

theorem natToHex_hex (n w : Nat) : ∀ c ∈ natToHex n w, isHexChar c = true := by
  induction w generalizing n with
  | zero => intro c hc; simp [natToHex] at hc
  | succ w ih =>
    intro c hc
    simp only [natToHex, List.mem_append, List.mem_singleton] at hc
    cases hc with
    | inl h => exact ih _ c h
    | inr h => subst h; exact isHexChar_hexDigitChar n

/-- Every string produced by the embedded `str(uuid4())` is in canonical
dashed hexadecimal form. -/
theorem uuid4str_canonical (r : Nat) : IsCanonicalUuid (uuid4str r) := by
  refine ⟨(natToHex (uuid4int r) 32).take 8,
    ((natToHex (uuid4int r) 32).drop 8).take 4,
    ((natToHex (uuid4int r) 32).drop 12).take 4,
    ((natToHex (uuid4int r) 32).drop 16).take 4,
    (natToHex (uuid4int r) 32).drop 20, rfl, ?_, ?_, ?_, ?_, ?_, ?_, ?_, ?_, ?_, ?_⟩
  · simp [natToHex_length]
  · simp [natToHex_length]
  · simp [natToHex_length]
  · simp [natToHex_length]
  · simp [natToHex_length]
  · intro c hc
    exact natToHex_hex _ _ c (List.mem_of_mem_take hc)
  · intro c hc
    exact natToHex_hex _ _ c (List.mem_of_mem_drop (List.mem_of_mem_take hc))
  · intro c hc
    exact natToHex_hex _ _ c (List.mem_of_mem_drop (List.mem_of_mem_take hc))
  · intro c hc
    exact natToHex_hex _ _ c (List.mem_of_mem_drop (List.mem_of_mem_take hc))
  · intro c hc
    exact natToHex_hex _ _ c (List.mem_of_mem_drop hc)

/-- The fixed clause `PredictionIDDecorator.description` appends to the
wrapped description. -/
def decorator_description : String :=
  " This model also has an optional input called 'prediction_id' that accepts an UUID string to uniquely identify the prediction returned. If the prediction id is not provided, a UUID is generated and returned in a field called 'prediction_id' in the model output."

/-- Descriptor of the `prediction_id=(Optional[str], None)` field added to the
input schema: an optional string defaulting to None. -/
def predictionIdInputField : FieldDescriptor :=
  ⟨"Optional[str]", false, some PyValue.none⟩

/-- Descriptor of the `prediction_id=(str, ...)` field added to the output
schema: a required string. -/
def predictionIdOutputField : FieldDescriptor := ⟨"str", true, Option.none⟩

/-- The input schema `PredictionIDDecorator` derives from a wrapped model:
`create_model(input_schema.__name__, prediction_id=(Optional[str], None),
__base__=input_schema)`. -/
def predIdInputSchema (m : MLModel) : Schema :=
  create_model m.input_schema.name [("prediction_id", predictionIdInputField)]
    m.input_schema

/-- The output schema `PredictionIDDecorator` derives from a wrapped model:
`create_model(output_schema.__name__, prediction_id=(str, ...),
__base__=output_schema)`. -/
def predIdOutputSchema (m : MLModel) : Schema :=
  create_model m.output_schema.name [("prediction_id", predictionIdOutputField)]
    m.output_schema

/-- `PredictionIDDecorator.description`: the wrapped description with the fixed
explanatory clause appended. -/
def PredictionIDDecorator.description (d : MLModelDecorator) :
    Except PyError String :=
  match d._model with
  | some m => .ok (m.description ++ decorator_description)
  | Option.none => .error .attributeErrorNoneModel

/-- `PredictionIDDecorator.input_schema`: reads the wrapped input schema fresh
at access time and derives the extended schema from it. -/
def PredictionIDDecorator.input_schema (d : MLModelDecorator) :
    Except PyError Schema :=
  match d._model with
  | some m => .ok (predIdInputSchema m)
  | Option.none => .error .attributeErrorNoneModel

/-- `PredictionIDDecorator.output_schema`: reads the wrapped output schema
fresh at access time and derives the extended schema from it. -/
def PredictionIDDecorator.output_schema (d : MLModelDecorator) :
    Except PyError Schema :=
  match d._model with
  | some m => .ok (predIdOutputSchema m)
  | Option.none => .error .attributeErrorNoneModel

/-- The identifier supplied by an input, when usable: the value of its
`prediction_id` attribute if the attribute exists and is not None. -/
def suppliedPredictionId (data : PyObject) : Option PyValue :=
  match data.fields.lookup "prediction_id" with
  | some v => if v = PyValue.none then Option.none else some v
  | Option.none => Option.none

/-- First half of `PredictionIDDecorator.predict` (source lines computing
`prediction_id`): if the input has a `prediction_id` attribute that is not
None, use it verbatim and consume no randomness; otherwise draw one value from
the identifier source and format it as `str(uuid4())`.  Randomness is made
explicit: `entropy k` is the 128-bit value of the k-th `uuid4()` call in the
process and `gen` counts the draws made so far; the function returns the
identifier together with the updated draw counter. -/
def predictionIdStep (entropy : Nat → Nat) (data : PyObject) (gen : Nat) :
    PyValue × Nat :=
  match data.fields.lookup "prediction_id" with
  | some v =>
    if v = PyValue.none then (PyValue.str (uuid4str (entropy gen)), gen + 1)
    else (v, gen)
  | Option.none => (PyValue.str (uuid4str (entropy gen)), gen + 1)

/-- Embedding of `PredictionIDDecorator.predict`.  Faithfully to the source,
the identifier step runs first (consuming one draw when the input carries no
usable `prediction_id`), then the wrapped predict runs — an unbound decorator
fails only at this point, and a wrapped failure propagates — and finally the
output is built as `self.output_schema(prediction_id=prediction_id,
**prediction.dict())`, which raises a duplicate-keyword TypeError if the
wrapped result already has a `prediction_id` field. -/
def PredictionIDDecorator.predict (d : MLModelDecorator) (entropy : Nat → Nat)
    (data : PyObject) (gen : Nat) : Except PyError PyObject × Nat :=
  let step := predictionIdStep entropy data gen
  match d._model with
  | Option.none => (.error .attributeErrorNoneModel, step.2)
  | some m =>
    match m.predict data with
    | .error e => (.error e, step.2)
    | .ok prediction =>
      if (prediction.fields.lookup "prediction_id").isSome then
        (.error .typeErrorDuplicateKeyword, step.2)
      else
        (.ok ⟨("prediction_id", step.1) :: prediction.fields⟩, step.2)

theorem beq_false_of_ne {k a : String} (h : k ≠ a) : (k == a) = false := by
  cases hc : (k == a) with
  | true => exact absurd (eq_of_beq hc) h
  | false => rfl

theorem lookup_append_of_some {β : Type} {k : String} {v : β}
    {l1 : List (String × β)} (l2 : List (String × β))
    (h : l1.lookup k = some v) : (l1 ++ l2).lookup k = some v := by
  induction l1 with
  | nil => simp at h
  | cons p rest ih =>
    cases p with
    | mk n b =>
      rw [List.lookup_cons] at h
      rw [List.cons_append, List.lookup_cons]
      cases hk : (k == n) with
      | true => rw [hk] at h; exact h
      | false => rw [hk] at h; exact ih h

theorem lookup_append_of_none {β : Type} {k : String}
    {l1 : List (String × β)} (l2 : List (String × β))
    (h : l1.lookup k = Option.none) : (l1 ++ l2).lookup k = l2.lookup k := by
  induction l1 with
  | nil => simp
  | cons p rest ih =>
    cases p with
    | mk n b =>
      rw [List.lookup_cons] at h
      rw [List.cons_append, List.lookup_cons]
      cases hk : (k == n) with
      | true => rw [hk] at h; simp at h
      | false => rw [hk] at h; exact ih h

theorem applyOverrides_cons (A : List (String × FieldDescriptor))
    (n : String) (b : FieldDescriptor) (rest : List (String × FieldDescriptor)) :
    applyOverrides A ((n, b) :: rest) =
      (match A.lookup n with
       | some d' => (n, d')
       | Option.none => (n, b)) :: applyOverrides A rest := rfl

theorem lookup_applyOverrides_ne {a k : String} {d : FieldDescriptor}
    (bf : List (String × FieldDescriptor)) (hk : k ≠ a) :
    (applyOverrides [(a, d)] bf).lookup k = bf.lookup k := by
  induction bf with
  | nil => rfl
  | cons p rest ih =>
    cases p with
    | mk n b =>
      rw [applyOverrides_cons]
      cases hna : (n == a) with
      | true =>
        have hna' : n = a := eq_of_beq hna
        have hkn : (k == n) = false := beq_false_of_ne (hna' ▸ hk)
        simp only [List.lookup_cons, hna, List.lookup_nil, hkn]
        exact ih
      | false =>
        simp only [List.lookup_cons, hna, List.lookup_nil]
        cases hkn : (k == n) with
        | true => simp only [hkn]
        | false => simp only [hkn]; exact ih

theorem lookup_applyOverrides_self {a : String} {d : FieldDescriptor}
    (bf : List (String × FieldDescriptor)) :
    (applyOverrides [(a, d)] bf).lookup a =
      (bf.lookup a).map (fun _ => d) := by
  induction bf with
  | nil => rfl
  | cons p rest ih =>
    cases p with
    | mk n b =>
      rw [applyOverrides_cons]
      cases hna : (n == a) with
      | true =>
        have hna' : n = a := eq_of_beq hna
        subst hna'
        simp only [List.lookup_cons, hna, List.lookup_nil]
        rfl
      | false =>
        have han : (a == n) = false := by
          cases hc : (a == n) with
          | true => rw [eq_of_beq hc, beq_self_eq_true] at hna; exact absurd hna (by simp)
          | false => rfl
        simp only [List.lookup_cons, hna, List.lookup_nil, han]
        exact ih

/-- On the derived schema, looking up any field other than the added
`prediction_id` gives exactly the base schema's descriptor for it. -/
theorem create_model_lookup_ne (nm a k : String) (d : FieldDescriptor)
    (base : Schema) (hk : k ≠ a) :
    (create_model nm [(a, d)] base).fields.lookup k = base.fields.lookup k := by
  show (applyOverrides [(a, d)] base.fields ++
      [(a, d)].filter (fun x => (base.fields.lookup x.1).isNone)).lookup k =
    base.fields.lookup k
  have hka : (k == a) = false := beq_false_of_ne hk
  cases hb : base.fields.lookup k with
  | some v =>
    have h1 : (applyOverrides [(a, d)] base.fields).lookup k = some v := by
      rw [lookup_applyOverrides_ne _ hk]; exact hb
    exact lookup_append_of_some _ h1
  | none =>
    have h1 : (applyOverrides [(a, d)] base.fields).lookup k = Option.none := by
      rw [lookup_applyOverrides_ne _ hk]; exact hb
    rw [lookup_append_of_none _ h1]
    cases hf : (base.fields.lookup a).isNone with
    | true =>
      simp only [List.filter, hf]
      rw [List.lookup_cons, hka]
      rfl
    | false =>
      simp only [List.filter, hf]
      rfl

/-- On the derived schema, the added field always carries the decorator's
descriptor, whether or not the base schema already declared it. -/
theorem create_model_lookup_added (nm a : String) (d : FieldDescriptor)
    (base : Schema) :
    (create_model nm [(a, d)] base).fields.lookup a = some d := by
  show (applyOverrides [(a, d)] base.fields ++
      [(a, d)].filter (fun x => (base.fields.lookup x.1).isNone)).lookup a =
    some d
  cases hb : base.fields.lookup a with
  | some v =>
    have h1 : (applyOverrides [(a, d)] base.fields).lookup a = some d := by
      rw [lookup_applyOverrides_self, hb]; rfl
    exact lookup_append_of_some _ h1
  | none =>
    have h1 : (applyOverrides [(a, d)] base.fields).lookup a = Option.none := by
      rw [lookup_applyOverrides_self, hb]; rfl
    rw [lookup_append_of_none _ h1]
    simp only [List.filter, hb, Option.isNone_none]
    rw [List.lookup_cons, beq_self_eq_true]

/-- A concrete input schema for witness models: one required int field `a`. -/
def cInputSchema : Schema := ⟨"CInput", [("a", ⟨"int", true, Option.none⟩)]⟩

/-- A concrete output schema for witness models: one required int field `b`. -/
def cOutputSchema : Schema := ⟨"COutput", [("b", ⟨"int", true, Option.none⟩)]⟩

/-- A concrete base model: predicts `{b: 10}` on every input. -/
def cModel : MLModel :=
  ⟨"C Model", "c_model", "A test model.", "0.1.0", cInputSchema, cOutputSchema,
    fun _ => .ok ⟨[("b", PyValue.int 10)]⟩⟩

/-- A concrete base model whose predict always raises. -/
def cFailModel : MLModel :=
  ⟨"Failing Model", "failing_model", "A failing model.", "0.1.0", cInputSchema,
    cOutputSchema, fun _ => .error (.other "wrapped failure")⟩

/-- A concrete entropy source for witnesses: every 128-bit draw is 7. -/
def cEntropy : Nat → Nat := fun _ => 7

/-- A concrete base model whose input schema already declares a
`prediction_id` field, of type int: deriving the decorator schema overrides
that field rather than keeping it unchanged. -/
def conflictModel : MLModel :=
  ⟨"Conflict Model", "conflict_model", "A model with a prediction_id input.",
    "0.1.0",
    ⟨"ConflictInput", [("a", ⟨"int", true, Option.none⟩),
      ("prediction_id", ⟨"int", true, Option.none⟩)]⟩,
    cOutputSchema, fun _ => .ok ⟨[("b", PyValue.int 10)]⟩⟩

/-- Claim C3 is false as stated: for a wrapped component whose input schema
already declares `prediction_id` (here with descriptor `(int, required)`), the
schema derived by `PredictionIDDecorator` does not contain that field
unchanged — `create_model` resolves the name collision in favour of the
decorator's `(Optional[str], None)` descriptor. -/
theorem schema_extension_unchanged_counterexample :
    conflictModel.input_schema.fields.lookup "prediction_id" =
      some ⟨"int", true, Option.none⟩ ∧
    PredictionIDDecorator.input_schema ⟨some conflictModel, []⟩ =
      .ok (predIdInputSchema conflictModel) ∧
    (predIdInputSchema conflictModel).fields.lookup "prediction_id" =
      some predictionIdInputField ∧
    predictionIdInputField ≠ (⟨"int", true, Option.none⟩ : FieldDescriptor) :=
  ⟨rfl, rfl, rfl, by decide⟩

/-- Claim C3 (amended): the input and output schemas derived by
`PredictionIDDecorator` keep the wrapped schema's name, keep every field other
than `prediction_id` unchanged (same descriptor: type, required status,
default), and carry the added `prediction_id` field — optional string
defaulting to None on input, required string on output.  A `prediction_id`
field already present in the wrapped schema is overridden by the addition. -/
theorem schema_extension_superset_amended (m : MLModel)
    (kwargs : List (String × PyValue)) :
    PredictionIDDecorator.input_schema ⟨some m, kwargs⟩ =
      .ok (predIdInputSchema m) ∧
    (predIdInputSchema m).name = m.input_schema.name ∧
    (∀ k, k ≠ "prediction_id" →
      (predIdInputSchema m).fields.lookup k = m.input_schema.fields.lookup k) ∧
    (predIdInputSchema m).fields.lookup "prediction_id" =
      some predictionIdInputField ∧
    PredictionIDDecorator.output_schema ⟨some m, kwargs⟩ =
      .ok (predIdOutputSchema m) ∧
    (predIdOutputSchema m).name = m.output_schema.name ∧
    (∀ k, k ≠ "prediction_id" →
      (predIdOutputSchema m).fields.lookup k = m.output_schema.fields.lookup k) ∧
    (predIdOutputSchema m).fields.lookup "prediction_id" =
      some predictionIdOutputField :=
  ⟨rfl, rfl, fun _ hk => create_model_lookup_ne _ _ _ _ _ hk,
    create_model_lookup_added _ _ _ _,
    rfl, rfl, fun _ hk => create_model_lookup_ne _ _ _ _ _ hk,
    create_model_lookup_added _ _ _ _⟩

/-- Witness for the amended claim C3 at the concrete model `cModel`. -/
theorem schema_extension_superset_witness :
    (predIdInputSchema cModel).fields.lookup "a" =
      cModel.input_schema.fields.lookup "a" ∧
    (predIdInputSchema cModel).fields.lookup "prediction_id" =
      some predictionIdInputField ∧
    (predIdOutputSchema cModel).fields.lookup "b" =
      cModel.output_schema.fields.lookup "b" :=
  ⟨(schema_extension_superset_amended cModel []).2.2.1 "a" (by decide),
    (schema_extension_superset_amended cModel []).2.2.2.1,
    (schema_extension_superset_amended cModel []).2.2.2.2.2.2.1 "b" (by decide)⟩

theorem predictionIdStep_supplied (entropy : Nat → Nat) (gen : Nat)
    {data : PyObject} {v : PyValue}
    (hv : data.fields.lookup "prediction_id" = some v)
    (hnn : v ≠ PyValue.none) :
    predictionIdStep entropy data gen = (v, gen) := by
  unfold predictionIdStep
  rw [hv]
  exact if_neg hnn

theorem predictionIdStep_generated (entropy : Nat → Nat) (gen : Nat)
    {data : PyObject}
    (hv : data.fields.lookup "prediction_id" = Option.none ∨
      data.fields.lookup "prediction_id" = some PyValue.none) :
    predictionIdStep entropy data gen =
      (PyValue.str (uuid4str (entropy gen)), gen + 1) := by
  unfold predictionIdStep
  cases hv with
  | inl h => rw [h]
  | inr h => rw [h]; exact if_pos rfl

theorem predictionIdStep_fst_ne_none (entropy : Nat → Nat) (data : PyObject)
    (gen : Nat) : (predictionIdStep entropy data gen).1 ≠ PyValue.none := by
  unfold predictionIdStep
  cases data.fields.lookup "prediction_id" with
  | none => simp
  | some v =>
    by_cases hv : v = PyValue.none
    · simp [hv]
    · simp [hv]

theorem predict_of_wrapped_error {m : MLModel}
    {kwargs : List (String × PyValue)} {entropy : Nat → Nat} {data : PyObject}
    {gen : Nat} {e : PyError} (hp : m.predict data = .error e) :
    PredictionIDDecorator.predict ⟨some m, kwargs⟩ entropy data gen =
      (.error e, (predictionIdStep entropy data gen).2) := by
  simp [PredictionIDDecorator.predict, hp]

theorem predict_of_wrapped_ok_dup {m : MLModel}
    {kwargs : List (String × PyValue)} {entropy : Nat → Nat} {data : PyObject}
    {gen : Nat} {pred : PyObject} (hp : m.predict data = .ok pred)
    (hd : (pred.fields.lookup "prediction_id").isSome = true) :
    PredictionIDDecorator.predict ⟨some m, kwargs⟩ entropy data gen =
      (.error .typeErrorDuplicateKeyword,
        (predictionIdStep entropy data gen).2) := by
  simp [PredictionIDDecorator.predict, hp, hd]

theorem predict_of_wrapped_ok {m : MLModel}
    {kwargs : List (String × PyValue)} {entropy : Nat → Nat} {data : PyObject}
    {gen : Nat} {pred : PyObject} (hp : m.predict data = .ok pred)
    (hd : (pred.fields.lookup "prediction_id").isSome = false) :
    PredictionIDDecorator.predict ⟨some m, kwargs⟩ entropy data gen =
      (.ok ⟨("prediction_id", (predictionIdStep entropy data gen).1) ::
        pred.fields⟩, (predictionIdStep entropy data gen).2) := by
  simp [PredictionIDDecorator.predict, hp, hd]

theorem predict_counter {m : MLModel} {kwargs : List (String × PyValue)}
    {entropy : Nat → Nat} {data : PyObject} {gen : Nat} :
    (PredictionIDDecorator.predict ⟨some m, kwargs⟩ entropy data gen).2 =
      (predictionIdStep entropy data gen).2 := by
  cases hp : m.predict data with
  | error e => rw [predict_of_wrapped_error hp]
  | ok pred =>
    cases hd : (pred.fields.lookup "prediction_id").isSome with
    | true => rw [predict_of_wrapped_ok_dup hp hd]
    | false => rw [predict_of_wrapped_ok hp hd]

theorem predict_ok_lookup {m : MLModel} {kwargs : List (String × PyValue)}
    {entropy : Nat → Nat} {data : PyObject} {gen : Nat} {out : PyObject}
    (hout : (PredictionIDDecorator.predict ⟨some m, kwargs⟩ entropy data
      gen).1 = .ok out) :
    out.fields.lookup "prediction_id" =
      some (predictionIdStep entropy data gen).1 := by
  cases hp : m.predict data with
  | error e => rw [predict_of_wrapped_error hp] at hout; simp at hout
  | ok pred =>
    cases hd : (pred.fields.lookup "prediction_id").isSome with
    | true => rw [predict_of_wrapped_ok_dup hp hd] at hout; simp at hout
    | false =>
      rw [predict_of_wrapped_ok hp hd] at hout
      simp only [Except.ok.injEq] at hout
      rw [← hout]
      rw [List.lookup_cons, beq_self_eq_true]

/-- Claim C2: if the input's `prediction_id` attribute is present and not None,
`PredictionIDDecorator.predict` does not draw from the identifier source (the
draw counter is returned unchanged), and any successfully returned output
carries that identifier verbatim.  Moreover every successful output of
`predict` carries a non-None identifier, so feeding a previously returned
identifier back never triggers regeneration. -/
theorem prediction_id_roundtrip (m : MLModel) (kwargs : List (String × PyValue))
    (entropy : Nat → Nat) (data : PyObject) (gen : Nat) (v : PyValue)
    (hv : data.fields.lookup "prediction_id" = some v)
    (hnn : v ≠ PyValue.none) :
    (PredictionIDDecorator.predict ⟨some m, kwargs⟩ entropy data gen).2 = gen ∧
    (∀ out,
      (PredictionIDDecorator.predict ⟨some m, kwargs⟩ entropy data gen).1 =
        .ok out →
      out.fields.lookup "prediction_id" = some v) ∧
    (∀ (data' : PyObject) (gen' : Nat) (out : PyObject),
      (PredictionIDDecorator.predict ⟨some m, kwargs⟩ entropy data' gen').1 =
        .ok out →
      ∃ w, out.fields.lookup "prediction_id" = some w ∧ w ≠ PyValue.none) := by
  have hstep : predictionIdStep entropy data gen = (v, gen) :=
    predictionIdStep_supplied entropy gen hv hnn
  refine ⟨?_, ?_, ?_⟩
  · rw [predict_counter, hstep]
  · intro out hout
    have h := predict_ok_lookup hout
    rw [hstep] at h
    exact h
  · intro data' gen' out hout
    exact ⟨(predictionIdStep entropy data' gen').1, predict_ok_lookup hout,
      predictionIdStep_fst_ne_none entropy data' gen'⟩

/-- A concrete input carrying an explicit identifier. -/
def cRoundtripInput : PyObject :=
  ⟨[("a", PyValue.int 5), ("prediction_id", PyValue.str "fixed-id-1")]⟩

/-- Witness for claim C2: with explicit identifier `fixed-id-1` no draw is
consumed and the output returns `fixed-id-1` verbatim. -/
theorem prediction_id_roundtrip_witness :
    (PredictionIDDecorator.predict ⟨some cModel, []⟩ cEntropy cRoundtripInput
      0).2 = 0 ∧
    (PyObject.mk [("prediction_id", PyValue.str "fixed-id-1"),
      ("b", PyValue.int 10)]).fields.lookup "prediction_id" =
      some (PyValue.str "fixed-id-1") := by
  have h := prediction_id_roundtrip cModel [] cEntropy cRoundtripInput 0
    (PyValue.str "fixed-id-1") rfl (by decide)
  exact ⟨h.1, h.2.1 _ rfl⟩

/-- Claim C4 is false as stated: when the wrapped predict fails, the error does
propagate unchanged with no partial result, but an identifier IS generated on
the failing call — the source computes `prediction_id` (calling `uuid4()` when
the input carries none) before invoking the wrapped predict.  Concretely, on an
input with no `prediction_id` and a wrapped model that always raises, the call
returns the wrapped error while the draw counter has advanced from 0 to 1: one
128-bit identifier draw was consumed. -/
theorem prediction_id_error_generation_counterexample :
    PredictionIDDecorator.predict ⟨some cFailModel, []⟩ cEntropy ⟨[]⟩ 0 =
      (.error (.other "wrapped failure"), 1) ∧
    (PredictionIDDecorator.predict ⟨some cFailModel, []⟩ cEntropy ⟨[]⟩ 0).2 ≠
      0 :=
  ⟨rfl, by decide⟩

/-- Claim C4 (amended): if the wrapped predict raises, the same error
propagates unchanged to the caller with no partial result and no identifier is
reported; however an identifier is still generated (one draw is consumed)
whenever the input carries no usable `prediction_id` — the draw happens before
the wrapped call — while a call with a usable supplied identifier consumes no
draw. -/
theorem prediction_id_error_propagation_amended (m : MLModel)
    (kwargs : List (String × PyValue)) (entropy : Nat → Nat) (data : PyObject)
    (gen : Nat) (e : PyError) (hp : m.predict data = .error e) :
    PredictionIDDecorator.predict ⟨some m, kwargs⟩ entropy data gen =
      (.error e, (predictionIdStep entropy data gen).2) ∧
    ((∃ v, data.fields.lookup "prediction_id" = some v ∧ v ≠ PyValue.none) →
      (predictionIdStep entropy data gen).2 = gen) ∧
    (data.fields.lookup "prediction_id" = Option.none ∨
      data.fields.lookup "prediction_id" = some PyValue.none →
      (predictionIdStep entropy data gen).2 = gen + 1) := by
  refine ⟨predict_of_wrapped_error hp, ?_, ?_⟩
  · rintro ⟨v, hv, hnn⟩
    rw [predictionIdStep_supplied entropy gen hv hnn]
  · intro hv
    rw [predictionIdStep_generated entropy gen hv]

/-- Witness for the amended claim C4 at concrete inputs: with a supplied
identifier the failing call propagates the error and consumes no draw. -/
theorem prediction_id_error_propagation_witness :
    PredictionIDDecorator.predict ⟨some cFailModel, []⟩ cEntropy
      cRoundtripInput 5 =
      (.error (.other "wrapped failure"),
        (predictionIdStep cEntropy cRoundtripInput 5).2) ∧
    (predictionIdStep cEntropy cRoundtripInput 5).2 = 5 := by
  have h := prediction_id_error_propagation_amended cFailModel [] cEntropy
    cRoundtripInput 5 (.other "wrapped failure") rfl
  exact ⟨h.1, h.2.1 ⟨PyValue.str "fixed-id-1", rfl, by decide⟩⟩

/-- A concrete input whose `prediction_id` attribute is present but None. -/
def cNoneIdInput : PyObject :=
  ⟨[("a", PyValue.int 5), ("prediction_id", PyValue.none)]⟩

/-- A concrete base model whose predict results already carry a
`prediction_id` field, exactly as the output of an inner stacked
`PredictionIDDecorator` would. -/
def cDupModel : MLModel :=
  ⟨"Dup Model", "dup_model", "A model whose output carries prediction_id.",
    "0.1.0", cInputSchema,
    ⟨"DupOutput", [("b", ⟨"int", true, Option.none⟩),
      ("prediction_id", ⟨"str", true, Option.none⟩)]⟩,
    fun _ => .ok ⟨[("b", PyValue.int 10),
      ("prediction_id", PyValue.str "inner-id")]⟩⟩

/-- Claim C9 is false as stated: when the wrapped result itself already
carries a `prediction_id` field — as it does whenever the wrapped component is
itself a `PredictionIDDecorator` or any model whose output schema declares the
field — the call `self.output_schema(prediction_id=..., **prediction.dict())`
receives the keyword twice and raises a TypeError, so no instance of the
output schema combining the wrapped result with the identifier is returned.
Concretely, on an input carrying `prediction_id=None` the decorator around
`cDupModel` returns the duplicate-keyword error (after consuming one draw),
not a combined instance. -/
theorem generated_prediction_id_duplicate_counterexample :
    PredictionIDDecorator.predict ⟨some cDupModel, []⟩ cEntropy cNoneIdInput
      0 = (.error .typeErrorDuplicateKeyword, 1) := rfl

/-- Claim C9 (amended): on an input whose `prediction_id` is absent or None,
`predict` draws one fresh 128-bit value and formats it as `str(uuid4())` — a
canonical dashed hexadecimal string — and invokes the wrapped predict on the
input; when the wrapped result does not itself carry a `prediction_id` field,
the call returns an instance of the derived output schema combining every
field of the wrapped result (unchanged) with the generated identifier; when
the wrapped result already carries `prediction_id`, the output construction
raises the duplicate-keyword TypeError instead of returning a combined
instance. -/
theorem generated_prediction_id (m : MLModel) (kwargs : List (String × PyValue))
    (entropy : Nat → Nat) (data : PyObject) (gen : Nat) (pred : PyObject)
    (hid : data.fields.lookup "prediction_id" = Option.none ∨
      data.fields.lookup "prediction_id" = some PyValue.none)
    (hp : m.predict data = .ok pred) :
    IsCanonicalUuid (uuid4str (entropy gen)) ∧
    (pred.fields.lookup "prediction_id" = Option.none →
      PredictionIDDecorator.predict ⟨some m, kwargs⟩ entropy data gen =
        (.ok ⟨("prediction_id", PyValue.str (uuid4str (entropy gen))) ::
          pred.fields⟩, gen + 1)) ∧
    (∀ k, k ≠ "prediction_id" →
      (PyObject.mk (("prediction_id", PyValue.str (uuid4str (entropy gen))) ::
        pred.fields)).fields.lookup k = pred.fields.lookup k) ∧
    (PyObject.mk (("prediction_id", PyValue.str (uuid4str (entropy gen))) ::
      pred.fields)).fields.lookup "prediction_id" =
      some (PyValue.str (uuid4str (entropy gen))) ∧
    ((pred.fields.lookup "prediction_id").isSome = true →
      PredictionIDDecorator.predict ⟨some m, kwargs⟩ entropy data gen =
        (.error .typeErrorDuplicateKeyword, gen + 1)) := by
  have hstep := predictionIdStep_generated entropy gen hid
  refine ⟨uuid4str_canonical _, ?_, ?_, ?_, ?_⟩
  · intro hnd
    have hd : (pred.fields.lookup "prediction_id").isSome = false := by
      rw [hnd]; rfl
    rw [predict_of_wrapped_ok hp hd, hstep]
  · intro k hk
    show (("prediction_id", PyValue.str (uuid4str (entropy gen))) ::
      pred.fields).lookup k = pred.fields.lookup k
    rw [List.lookup_cons, beq_false_of_ne hk]
  · show (("prediction_id", PyValue.str (uuid4str (entropy gen))) ::
      pred.fields).lookup "prediction_id" =
      some (PyValue.str (uuid4str (entropy gen)))
    rw [List.lookup_cons, beq_self_eq_true]
  · intro hd
    rw [predict_of_wrapped_ok_dup hp hd, hstep]

/-- Witness for the amended claim C9 at a concrete input carrying
`prediction_id=None` around a wrapped model without the field. -/
theorem generated_prediction_id_witness :
    PredictionIDDecorator.predict ⟨some cModel, []⟩ cEntropy cNoneIdInput 3 =
      (.ok ⟨[("prediction_id", PyValue.str (uuid4str (cEntropy 3))),
        ("b", PyValue.int 10)]⟩, 4) ∧
    IsCanonicalUuid (uuid4str (cEntropy 3)) := by
  have h := generated_prediction_id cModel [] cEntropy cNoneIdInput 3
    ⟨[("b", PyValue.int 10)]⟩ (Or.inr rfl) rfl
  exact ⟨h.2.1 rfl, h.1⟩

/-- A concrete input with no `prediction_id` attribute at all. -/
def cPlainInput : PyObject := ⟨[("a", PyValue.int 5)]⟩

/-- Claim C10 is false as stated: on an input with no `prediction_id`
attribute, the hasattr guard does avoid any attribute-access failure, but the
call does not always succeed — when the wrapped result already carries a
`prediction_id` field (a wrapped component whose output schema declares it,
such as an inner identifier decorator) the output construction raises the
duplicate-keyword TypeError.  Concretely, the decorator around `cDupModel`
fails on the attribute-free input. -/
theorem missing_attribute_duplicate_counterexample :
    (PredictionIDDecorator.predict ⟨some cDupModel, []⟩ cEntropy cPlainInput
      0).1 = .error .typeErrorDuplicateKeyword := rfl

/-- Claim C10 (amended): an input lacking the `prediction_id` attribute
entirely (for example an instance of the wrapped component's original,
undecorated input schema) is accepted: the hasattr guard treats the missing
attribute like an absent value, so no attribute-access failure is ever raised
and a generated identifier is computed; the call succeeds and returns the
generated identifier whenever the wrapped result does not itself carry a
`prediction_id` field, and otherwise fails with the duplicate-keyword
TypeError — in neither case an attribute-access failure. -/
theorem missing_attribute_predict_succeeds (m : MLModel)
    (kwargs : List (String × PyValue)) (entropy : Nat → Nat) (data : PyObject)
    (gen : Nat) (pred : PyObject)
    (hid : data.fields.lookup "prediction_id" = Option.none)
    (hp : m.predict data = .ok pred) :
    (pred.fields.lookup "prediction_id" = Option.none →
      (PredictionIDDecorator.predict ⟨some m, kwargs⟩ entropy data gen).1 =
        .ok ⟨("prediction_id", PyValue.str (uuid4str (entropy gen))) ::
          pred.fields⟩) ∧
    ((pred.fields.lookup "prediction_id").isSome = true →
      (PredictionIDDecorator.predict ⟨some m, kwargs⟩ entropy data gen).1 =
        .error .typeErrorDuplicateKeyword) ∧
    (PredictionIDDecorator.predict ⟨some m, kwargs⟩ entropy data gen).1 ≠
      .error .attributeErrorNoneModel ∧
    (PyObject.mk (("prediction_id", PyValue.str (uuid4str (entropy gen))) ::
      pred.fields)).fields.lookup "prediction_id" =
      some (PyValue.str (uuid4str (entropy gen))) := by
  have hstep := predictionIdStep_generated entropy gen (Or.inl hid)
  refine ⟨?_, ?_, ?_, ?_⟩
  · intro hnd
    have hd : (pred.fields.lookup "prediction_id").isSome = false := by
      rw [hnd]; rfl
    rw [predict_of_wrapped_ok hp hd, hstep]
  · intro hd
    rw [predict_of_wrapped_ok_dup hp hd]
  · cases hd : (pred.fields.lookup "prediction_id").isSome with
    | true =>
      rw [predict_of_wrapped_ok_dup hp hd]
      intro hc
      simp at hc
    | false =>
      rw [predict_of_wrapped_ok hp hd]
      intro hc
      simp at hc
  · show (("prediction_id", PyValue.str (uuid4str (entropy gen))) ::
      pred.fields).lookup "prediction_id" =
      some (PyValue.str (uuid4str (entropy gen)))
    rw [List.lookup_cons, beq_self_eq_true]

/-- Witness for the amended claim C10 at a concrete attribute-free input. -/
theorem missing_attribute_predict_succeeds_witness :
    (PredictionIDDecorator.predict ⟨some cModel, []⟩ cEntropy cPlainInput
      0).1 =
      .ok ⟨[("prediction_id", PyValue.str (uuid4str (cEntropy 0))),
        ("b", PyValue.int 10)]⟩ :=
  (missing_attribute_predict_succeeds cModel [] cEntropy cPlainInput 0
    ⟨[("b", PyValue.int 10)]⟩ rfl rfl).1 rfl

/-- Allocation model for schema derivation: `create_model` builds a brand-new
class object, so an access of a derived schema property appends a new schema
object to the heap of existing schema objects and returns its reference,
leaving every existing object untouched. -/
def schemaAlloc (heap : List Schema) (s : Schema) : List Schema × Nat :=
  (heap ++ [s], heap.length)

/-- One access of `PredictionIDDecorator.input_schema` on a decorator bound to
`m`, in the allocation model: derives the extended schema and allocates it. -/
def inputSchemaAccess (heap : List Schema) (m : MLModel) : List Schema × Nat :=
  schemaAlloc heap (predIdInputSchema m)

/-- One access of `PredictionIDDecorator.output_schema` on a decorator bound to
`m`, in the allocation model. -/
def outputSchemaAccess (heap : List Schema) (m : MLModel) : List Schema × Nat :=
  schemaAlloc heap (predIdOutputSchema m)

theorem schemaAlloc_frame (heap : List Schema) (s : Schema) (i : Nat)
    (hi : i < heap.length) :
    (schemaAlloc heap s).1.getD i ⟨"", []⟩ = heap.getD i ⟨"", []⟩ := by
  unfold schemaAlloc
  simp only [List.getD]
  rw [List.get?_append hi]

theorem schemaAlloc_fresh (heap : List Schema) (s : Schema) :
    (schemaAlloc heap s).1.getD (schemaAlloc heap s).2 ⟨"", []⟩ = s := by
  unfold schemaAlloc
  simp only [List.getD]
  rw [List.get?_append_right (Nat.le_refl _)]
  simp

/-- Claim C8: deriving the extended schemas is pure.  In the allocation model,
an access of `PredictionIDDecorator.input_schema` or `output_schema` leaves
every schema object already on the heap — the wrapped component's schemas and
any schema previously derived from them — exactly as it was, and two repeated
accesses return two distinct references (not the identical object) whose
values are structurally equal. -/
theorem schema_derivation_pure (heap : List Schema) (m : MLModel) (i : Nat)
    (hi : i < heap.length) :
    (inputSchemaAccess heap m).1.getD i ⟨"", []⟩ = heap.getD i ⟨"", []⟩ ∧
    (outputSchemaAccess heap m).1.getD i ⟨"", []⟩ = heap.getD i ⟨"", []⟩ ∧
    (inputSchemaAccess (inputSchemaAccess heap m).1 m).2 ≠
      (inputSchemaAccess heap m).2 ∧
    (inputSchemaAccess (inputSchemaAccess heap m).1 m).1.getD
      (inputSchemaAccess heap m).2 ⟨"", []⟩ =
    (inputSchemaAccess (inputSchemaAccess heap m).1 m).1.getD
      (inputSchemaAccess (inputSchemaAccess heap m).1 m).2 ⟨"", []⟩ := by
  refine ⟨schemaAlloc_frame heap _ i hi, schemaAlloc_frame heap _ i hi, ?_, ?_⟩
  · show (heap ++ [predIdInputSchema m]).length ≠ heap.length
    simp
  · have h1 : (inputSchemaAccess (inputSchemaAccess heap m).1 m).1.getD
        (inputSchemaAccess heap m).2 ⟨"", []⟩ = predIdInputSchema m := by
      have hfr := schemaAlloc_frame (inputSchemaAccess heap m).1
        (predIdInputSchema m) heap.length
        (by simp [inputSchemaAccess, schemaAlloc])
      show (schemaAlloc (inputSchemaAccess heap m).1
        (predIdInputSchema m)).1.getD heap.length ⟨"", []⟩ =
        predIdInputSchema m
      rw [hfr]
      exact schemaAlloc_fresh heap (predIdInputSchema m)
    have h2 : (inputSchemaAccess (inputSchemaAccess heap m).1 m).1.getD
        (inputSchemaAccess (inputSchemaAccess heap m).1 m).2 ⟨"", []⟩ =
        predIdInputSchema m :=
      schemaAlloc_fresh (inputSchemaAccess heap m).1 (predIdInputSchema m)
    rw [h1, h2]

/-- Witness for claim C8 on a one-object heap. -/
theorem schema_derivation_pure_witness :
    (inputSchemaAccess [cInputSchema] cModel).1.getD 0 ⟨"", []⟩ =
      [cInputSchema].getD 0 ⟨"", []⟩ ∧
    (inputSchemaAccess (inputSchemaAccess [cInputSchema] cModel).1 cModel).2 ≠
      (inputSchemaAccess [cInputSchema] cModel).2 := by
  have h := schema_derivation_pure [cInputSchema] cModel 0 (by decide)
  exact ⟨h.1, h.2.2.1⟩

/-- An object cell in the object-graph model of decoration: either a base
MLModel instance, or a decorator instance holding the heap index of the one
object it wraps together with its configuration mapping. -/
inductive HeapCell where
  | baseCell (m : MLModel)
  | decoratorCell (wrapped : Nat) (kwargs : List (String × PyValue))

/-- Allocating a base component on the object heap. -/
def allocBase (heap : List HeapCell) (m : MLModel) : List HeapCell :=
  heap ++ [HeapCell.baseCell m]

/-- Constructing a decorator around an existing object: the `model` argument
of `MLModelDecorator.__init__` must be an object that already exists on the
heap (a constructor argument necessarily predates the object under
construction), and the new decorator is appended and its fresh index returned.
Passing the new object's own index — self-wrapping — fails. -/
def constructDecorator (heap : List HeapCell) (i : Nat)
    (kwargs : List (String × PyValue)) : Option (List HeapCell × Nat) :=
  if i < heap.length then
    some (heap ++ [HeapCell.decoratorCell i kwargs], heap.length)
  else Option.none

/-- Object `j` is a decorator that directly wraps object `i`. -/
def wrapsIn (heap : List HeapCell) (j i : Nat) : Prop :=
  ∃ kwargs, heap.get? j = some (HeapCell.decoratorCell i kwargs)

/-- A heap is well formed when every decorator wraps an object allocated
strictly before it — the invariant every constructor-built heap satisfies. -/
def WFHeap (heap : List HeapCell) : Prop :=
  ∀ j i kwargs, heap.get? j = some (HeapCell.decoratorCell i kwargs) → i < j

theorem wfHeap_nil : WFHeap [] := by
  intro j i kwargs h
  simp at h

theorem wfHeap_allocBase {heap : List HeapCell} (hw : WFHeap heap)
    (m : MLModel) : WFHeap (allocBase heap m) := by
  intro j i kwargs h
  unfold allocBase at h
  by_cases hj : j < heap.length
  · rw [List.get?_append hj] at h
    exact hw j i kwargs h
  · rw [List.get?_append_right (Nat.le_of_not_lt hj)] at h
    cases hjl : j - heap.length with
    | zero => rw [hjl] at h; simp at h
    | succ n => rw [hjl] at h; simp at h

theorem wfHeap_construct {heap : List HeapCell} (hw : WFHeap heap) {i : Nat}
    {kwargs : List (String × PyValue)} {heap' : List HeapCell} {r : Nat}
    (hc : constructDecorator heap i kwargs = some (heap', r)) :
    WFHeap heap' := by
  unfold constructDecorator at hc
  by_cases hi : i < heap.length
  · rw [if_pos hi] at hc
    simp only [Option.some.injEq, Prod.mk.injEq] at hc
    obtain ⟨h1, h2⟩ := hc
    subst h1
    intro j i' kwargs' h
    by_cases hj : j < heap.length
    · rw [List.get?_append hj] at h
      exact hw j i' kwargs' h
    · rw [List.get?_append_right (Nat.le_of_not_lt hj)] at h
      cases hjl : j - heap.length with
      | zero =>
        rw [hjl] at h
        simp only [List.get?_cons_zero, Option.some.injEq,
          HeapCell.decoratorCell.injEq] at h
        obtain ⟨hii, -⟩ := h
        subst hii
        have hje : j = heap.length := by omega
        omega
      | succ n => rw [hjl] at h; simp at h
  · rw [if_neg hi] at hc
    simp at hc

theorem wrapsIn_lt {heap : List HeapCell} (hw : WFHeap heap) {j i : Nat}
    (h : wrapsIn heap j i) : i < j := by
  obtain ⟨kwargs, hk⟩ := h
  exact hw j i kwargs hk

theorem transGen_wrapsIn_lt {heap : List HeapCell} (hw : WFHeap heap)
    {a b : Nat} (h : Relation.TransGen (wrapsIn heap) a b) : b < a := by
  induction h with
  | single h1 => exact wrapsIn_lt hw h1
  | tail _ h2 ih => exact Nat.lt_trans (wrapsIn_lt hw h2) ih

theorem wfHeap_terminates {heap : List HeapCell} (hw : WFHeap heap) :
    ∀ j, j < heap.length →
      ∃ k m, Relation.ReflTransGen (wrapsIn heap) j k ∧
        heap.get? k = some (HeapCell.baseCell m) := by
  intro j
  induction j using Nat.strong_induction_on with
  | _ j ih =>
    intro hj
    cases hc : heap.get? j with
    | none =>
      rw [List.get?_eq_none] at hc
      omega
    | some cell =>
      cases cell with
      | baseCell m => exact ⟨j, m, Relation.ReflTransGen.refl, hc⟩
      | decoratorCell i kwargs =>
        have hij : i < j := hw j i kwargs hc
        obtain ⟨k, m, hr, hk⟩ := ih i hij (Nat.lt_trans hij hj)
        exact ⟨k, m, Relation.ReflTransGen.head ⟨kwargs, hc⟩ hr, hk⟩

/-- Claim C7: decorator chains built by construction are singly linked and
acyclic.  On any well-formed object heap (and the empty heap is well formed,
base allocation and decorator construction preserve well-formedness, so every
constructor-built heap is well formed): constructing a decorator around its
own fresh index fails, no object ever wraps itself directly or transitively,
and every chain followed from any object terminates at a base component. -/
theorem decorator_chain_acyclic (heap : List HeapCell) (hw : WFHeap heap) :
    WFHeap [] ∧
    (∀ m, WFHeap (allocBase heap m)) ∧
    (∀ i kwargs heap' r, constructDecorator heap i kwargs = some (heap', r) →
      WFHeap heap') ∧
    (∀ kwargs, constructDecorator heap heap.length kwargs = Option.none) ∧
    (∀ j, ¬ Relation.TransGen (wrapsIn heap) j j) ∧
    (∀ j, j < heap.length →
      ∃ k m, Relation.ReflTransGen (wrapsIn heap) j k ∧
        heap.get? k = some (HeapCell.baseCell m)) := by
  refine ⟨wfHeap_nil, fun m => wfHeap_allocBase hw m,
    fun i kwargs heap' r hc => wfHeap_construct hw hc, ?_, ?_,
    wfHeap_terminates hw⟩
  · intro kwargs
    unfold constructDecorator
    rw [if_neg (Nat.lt_irrefl heap.length)]
  · intro j hcyc
    exact absurd (transGen_wrapsIn_lt hw hcyc) (Nat.lt_irrefl j)

/-- A concrete well-formed two-object heap: a base model wrapped by one
decorator. -/
def cHeap : List HeapCell := [HeapCell.baseCell cModel, HeapCell.decoratorCell 0 []]

theorem cHeap_wf : WFHeap cHeap := by
  intro j i kwargs h
  match j with
  | 0 => simp [cHeap] at h
  | 1 =>
    simp only [cHeap, List.get?_cons_succ, List.get?_cons_zero,
      Option.some.injEq, HeapCell.decoratorCell.injEq] at h
    omega
  | n + 2 => simp [cHeap] at h

/-- Witness for claim C7 on the concrete two-object heap. -/
theorem decorator_chain_acyclic_witness :
    (∀ kwargs, constructDecorator cHeap cHeap.length kwargs = Option.none) ∧
    ¬ Relation.TransGen (wrapsIn cHeap) 1 1 := by
  have h := decorator_chain_acyclic cHeap cHeap_wf
  exact ⟨h.2.2.2.1, h.2.2.2.2.1 1⟩

end MLDec
